import Mathlib

/-!
# Verification of the BEPUik `IKDistanceLimit` constraint

Shallow embedding of `src/intern/bepuik/intern/IKDistanceLimit.cpp` over the
real numbers (the C++ `float` arithmetic is modelled exactly, as real
arithmetic).  The math primitives (`Vector3`, `Quaternion`, `Matrix3X3`,
`Toolbox::Epsilon`, `MathHelper::Max`) live in the external math module of the
repository and are modelled from the spec where noted.
-/

namespace BEPUik

/-- 3-component vector with value semantics, modelling the solver's `Vector3`.
Components are reals, standing for the C++ floats. -/
@[ext]
structure Vector3 where
  X : ℝ
  Y : ℝ
  Z : ℝ

/-- `Vector3()` — the default (zero) vector. -/
def Vector3.zero : Vector3 := ⟨0, 0, 0⟩

/-- `Vector3::Add(a, b, out)`. -/
def Vector3.Add (a b : Vector3) : Vector3 := ⟨a.X + b.X, a.Y + b.Y, a.Z + b.Z⟩

/-- `Vector3::Subtract(a, b, out)`. -/
def Vector3.Subtract (a b : Vector3) : Vector3 := ⟨a.X - b.X, a.Y - b.Y, a.Z - b.Z⟩

/-- `Vector3::Negate(v, out)`. -/
def Vector3.Negate (v : Vector3) : Vector3 := ⟨-v.X, -v.Y, -v.Z⟩

/-- `Vector3::Cross(a, b, out)` — the standard cross product. -/
def Vector3.Cross (a b : Vector3) : Vector3 :=
  ⟨a.Y * b.Z - a.Z * b.Y, a.Z * b.X - a.X * b.Z, a.X * b.Y - a.Y * b.X⟩

/-- `Vector3::Length()` — Euclidean length. -/
noncomputable def Vector3.Length (v : Vector3) : ℝ :=
  Real.sqrt (v.X * v.X + v.Y * v.Y + v.Z * v.Z)

/-- Componentwise division of a vector by its length, as written out inline in
`UpdateJacobiansAndVelocityBias` (`linearA.X = separation.X / currentDistance;` …). -/
noncomputable def Vector3.unit (v : Vector3) : Vector3 :=
  ⟨v.X / v.Length, v.Y / v.Length, v.Z / v.Length⟩

/-- Modelled from the spec: the orientation quaternion of the external math
module ("Orientation: unit quaternion, value semantics, supports conjugate and
vector rotation"); its source is not part of the excerpt. -/
@[ext]
structure Quaternion where
  X : ℝ
  Y : ℝ
  Z : ℝ
  W : ℝ

/-- Modelled from the spec: Hamilton product of two quaternions, the standard
algebra underlying "vector rotation" for the orientation type. -/
def Quaternion.mul (a b : Quaternion) : Quaternion :=
  ⟨a.W * b.X + a.X * b.W + a.Y * b.Z - a.Z * b.Y,
   a.W * b.Y - a.X * b.Z + a.Y * b.W + a.Z * b.X,
   a.W * b.Z + a.X * b.Y - a.Y * b.X + a.Z * b.W,
   a.W * b.W - a.X * b.X - a.Y * b.Y - a.Z * b.Z⟩

/-- `Quaternion::Conjugate(q, out)` — negate the vector part. -/
def Quaternion.Conjugate (q : Quaternion) : Quaternion := ⟨-q.X, -q.Y, -q.Z, q.W⟩

/-- Squared norm of a quaternion; a unit quaternion has `normSq q = 1`. -/
def Quaternion.normSq (q : Quaternion) : ℝ :=
  q.X * q.X + q.Y * q.Y + q.Z * q.Z + q.W * q.W

/-- Modelled from the spec: `Quaternion::Transform(v, rotation, out)` — rotate a
vector by a (unit) quaternion, the standard sandwich `q · v · q*`. -/
def Quaternion.Transform (v : Vector3) (rotation : Quaternion) : Vector3 :=
  let p : Quaternion := ⟨v.X, v.Y, v.Z, 0⟩
  let r := (rotation.mul p).mul (Quaternion.Conjugate rotation)
  ⟨r.X, r.Y, r.Z⟩

/-- 3×3 matrix used as the Jacobian-row container; only the first row is
populated by this 1-DOF constraint. -/
@[ext]
structure Matrix3X3 where
  M11 : ℝ
  M12 : ℝ
  M13 : ℝ
  M21 : ℝ
  M22 : ℝ
  M23 : ℝ
  M31 : ℝ
  M32 : ℝ
  M33 : ℝ

/-- `Matrix3X3()` — the default (zero) matrix. -/
def Matrix3X3.zero : Matrix3X3 := ⟨0, 0, 0, 0, 0, 0, 0, 0, 0⟩

/-- First row of a Jacobian-row container, as a vector. -/
def Matrix3X3.row1 (m : Matrix3X3) : Vector3 := ⟨m.M11, m.M12, m.M13⟩

/-- Second row of a Jacobian-row container, as a vector. -/
def Matrix3X3.row2 (m : Matrix3X3) : Vector3 := ⟨m.M21, m.M22, m.M23⟩

/-- Third row of a Jacobian-row container, as a vector. -/
def Matrix3X3.row3 (m : Matrix3X3) : Vector3 := ⟨m.M31, m.M32, m.M33⟩

/-- `Matrix3X3()` followed by assigning `M11`, `M12`, `M13`, as in the tail of
`UpdateJacobiansAndVelocityBias`. -/
def Matrix3X3.ofRow1 (v : Vector3) : Matrix3X3 :=
  { Matrix3X3.zero with M11 := v.X, M12 := v.Y, M13 := v.Z }

/-- Modelled from the spec: the "fixed small epsilon constant" of the external
math module (`Toolbox::Epsilon`), not part of the excerpt. -/
def ToolboxEpsilon : ℝ := 1e-7

/-- An `IKBone`: world-space position and orientation, read-only for this
component. -/
structure IKBone where
  Position : Vector3
  Orientation : Quaternion

/-- The `IKDistanceLimit` constraint state: the two referenced bones
(`connectionA`, `connectionB`, held by the `IKLimit`/`IKJoint` base), the stored
configuration (local anchors, clamped distance band, error-correction factor
of the joint base), and the derived per-iteration state. -/
structure IKDistanceLimit where
  connectionA : IKBone
  connectionB : IKBone
  LocalAnchorA : Vector3
  LocalAnchorB : Vector3
  minimumDistance : ℝ
  maximumDistance : ℝ
  errorCorrectionFactor : ℝ
  error : ℝ
  velocityBias : Vector3
  linearJacobianA : Matrix3X3
  linearJacobianB : Matrix3X3
  angularJacobianA : Matrix3X3
  angularJacobianB : Matrix3X3

namespace IKDistanceLimit

/-- `IKDistanceLimit::GetAnchorA()`. -/
def GetAnchorA (j : IKDistanceLimit) : Vector3 :=
  Vector3.Add j.connectionA.Position
    (Quaternion.Transform j.LocalAnchorA j.connectionA.Orientation)

/-- `IKDistanceLimit::SetAnchorA(anchor)`. -/
def SetAnchorA (j : IKDistanceLimit) (anchor : Vector3) : IKDistanceLimit :=
  let a1 := Vector3.Subtract anchor j.connectionA.Position
  let conjugate := Quaternion.Conjugate j.connectionA.Orientation
  { j with LocalAnchorA := Quaternion.Transform a1 conjugate }

/-- `IKDistanceLimit::GetAnchorB()`. -/
def GetAnchorB (j : IKDistanceLimit) : Vector3 :=
  Vector3.Add j.connectionB.Position
    (Quaternion.Transform j.LocalAnchorB j.connectionB.Orientation)

/-- `IKDistanceLimit::SetAnchorB(anchor)`. -/
def SetAnchorB (j : IKDistanceLimit) (anchor : Vector3) : IKDistanceLimit :=
  let a1 := Vector3.Subtract anchor j.connectionB.Position
  let conjugate := Quaternion.Conjugate j.connectionB.Orientation
  { j with LocalAnchorB := Quaternion.Transform a1 conjugate }

/-- `IKDistanceLimit::GetMinimumDistance()`. -/
def GetMinimumDistance (j : IKDistanceLimit) : ℝ := j.minimumDistance

/-- `IKDistanceLimit::SetMinimumDistance(newDistance)` —
`minimumDistance = MathHelper::Max(0, newDistance)`. -/
def SetMinimumDistance (j : IKDistanceLimit) (newDistance : ℝ) : IKDistanceLimit :=
  { j with minimumDistance := max 0 newDistance }

/-- `IKDistanceLimit::GetMaximumDistance()`. -/
def GetMaximumDistance (j : IKDistanceLimit) : ℝ := j.maximumDistance

/-- `IKDistanceLimit::SetMaximumDistance(newDistance)` —
`maximumDistance = MathHelper::Max(0, newDistance)`. -/
def SetMaximumDistance (j : IKDistanceLimit) (newDistance : ℝ) : IKDistanceLimit :=
  { j with maximumDistance := max 0 newDistance }

/-- The world-space offset `offsetA` recomputed at the top of
`UpdateJacobiansAndVelocityBias`. -/
def offsetA (j : IKDistanceLimit) : Vector3 :=
  Quaternion.Transform j.LocalAnchorA j.connectionA.Orientation

/-- The world-space offset `offsetB` recomputed at the top of
`UpdateJacobiansAndVelocityBias`. -/
def offsetB (j : IKDistanceLimit) : Vector3 :=
  Quaternion.Transform j.LocalAnchorB j.connectionB.Orientation

/-- The world anchor `anchorA` recomputed in `UpdateJacobiansAndVelocityBias`. -/
def anchorA (j : IKDistanceLimit) : Vector3 :=
  Vector3.Add j.connectionA.Position j.offsetA

/-- The world anchor `anchorB` recomputed in `UpdateJacobiansAndVelocityBias`. -/
def anchorB (j : IKDistanceLimit) : Vector3 :=
  Vector3.Add j.connectionB.Position j.offsetB

/-- `separation = anchorB − anchorA` in `UpdateJacobiansAndVelocityBias`. -/
def separation (j : IKDistanceLimit) : Vector3 :=
  Vector3.Subtract j.anchorB j.anchorA

/-- `currentDistance = separation.Length()` in `UpdateJacobiansAndVelocityBias`. -/
noncomputable def currentDistance (j : IKDistanceLimit) : ℝ :=
  j.separation.Length

/-- `IKDistanceLimit::UpdateJacobiansAndVelocityBias()` — the per-iteration
recomputation.  The guarded block computes `(error, velocityBias, linearA)`;
the tail assembles the four Jacobian-row containers. -/
noncomputable def UpdateJacobiansAndVelocityBias (j : IKDistanceLimit) : IKDistanceLimit :=
  let res : ℝ × Vector3 × Vector3 :=
    if j.currentDistance > ToolboxEpsilon then
      if j.currentDistance > j.maximumDistance then
        (j.currentDistance - j.maximumDistance,
         ⟨j.errorCorrectionFactor * (j.currentDistance - j.maximumDistance), 0, 0⟩,
         j.separation.unit)
      else if j.currentDistance < j.minimumDistance then
        (j.minimumDistance - j.currentDistance,
         ⟨j.errorCorrectionFactor * (j.minimumDistance - j.currentDistance), 0, 0⟩,
         Vector3.Negate j.separation.unit)
      else if j.currentDistance - j.minimumDistance >
          (j.maximumDistance - j.minimumDistance) * 0.5 then
        (0, ⟨j.currentDistance - j.maximumDistance, 0, 0⟩, j.separation.unit)
      else
        (0, ⟨j.minimumDistance - j.currentDistance, 0, 0⟩,
         Vector3.Negate j.separation.unit)
    else
      (0, Vector3.zero, Vector3.zero)
  let linearA := res.2.2
  let angularA := Vector3.Cross j.offsetA linearA
  let angularB := Vector3.Cross linearA j.offsetB
  { j with
    error := res.1
    velocityBias := res.2.1
    linearJacobianA := Matrix3X3.ofRow1 linearA
    linearJacobianB := Matrix3X3.ofRow1 (Vector3.Negate linearA)
    angularJacobianA := Matrix3X3.ofRow1 angularA
    angularJacobianB := Matrix3X3.ofRow1 angularB }

/-- `IKDistanceLimit::HasError()` — `return !(std::abs(error) < 0.0001f);`. -/
noncomputable def HasError (j : IKDistanceLimit) : Bool :=
  !(decide (|j.error| < 0.0001))

end IKDistanceLimit

end BEPUik

namespace BEPUik

/-- Concrete test fixture: both bones carry the identity orientation, bone A at
the origin, bone B at `(b, 0, 0)`, both local anchors zero, distance band
`[m, M]`, error-correction factor 1. -/
def qId : Quaternion := ⟨0, 0, 0, 1⟩

/-- Concrete distance-limit state used for witnesses. -/
def mkTest (m M b : ℝ) : IKDistanceLimit where
  connectionA := ⟨⟨0, 0, 0⟩, qId⟩
  connectionB := ⟨⟨b, 0, 0⟩, qId⟩
  LocalAnchorA := ⟨0, 0, 0⟩
  LocalAnchorB := ⟨0, 0, 0⟩
  minimumDistance := m
  maximumDistance := M
  errorCorrectionFactor := 1
  error := 0
  velocityBias := Vector3.zero
  linearJacobianA := Matrix3X3.zero
  linearJacobianB := Matrix3X3.zero
  angularJacobianA := Matrix3X3.zero
  angularJacobianB := Matrix3X3.zero

/-- Rotating by the identity quaternion is the identity map. -/
lemma Transform_qId (v : Vector3) : Quaternion.Transform v qId = v := by
  ext <;> simp [Quaternion.Transform, Quaternion.mul, Quaternion.Conjugate, qId]

/-- The anticommutativity form used by the source comment
`linearB = -linearA, so just swap the cross product order.` -/
lemma Cross_swap_negate (a b : Vector3) :
    Vector3.Cross a b = Vector3.Cross b (Vector3.Negate a) := by
  ext <;> simp [Vector3.Cross, Vector3.Negate] <;> ring

lemma mkTest_separation (m M b : ℝ) : (mkTest m M b).separation = ⟨b, 0, 0⟩ := by
  ext <;>
    simp [mkTest, IKDistanceLimit.separation, IKDistanceLimit.anchorA,
      IKDistanceLimit.anchorB, IKDistanceLimit.offsetA, IKDistanceLimit.offsetB,
      Vector3.Add, Vector3.Subtract, Transform_qId]

lemma Length_single (b : ℝ) (hb : 0 ≤ b) : (⟨b, 0, 0⟩ : Vector3).Length = b := by
  show Real.sqrt (b * b + 0 * 0 + 0 * 0) = b
  rw [show b * b + 0 * 0 + 0 * 0 = b * b by ring, Real.sqrt_mul_self hb]

lemma mkTest_currentDistance (m M b : ℝ) (hb : 0 ≤ b) :
    (mkTest m M b).currentDistance = b := by
  rw [IKDistanceLimit.currentDistance, mkTest_separation, Length_single b hb]

lemma mkTest_unit (m M b : ℝ) (hb : 0 < b) :
    (mkTest m M b).separation.unit = ⟨1, 0, 0⟩ := by
  rw [mkTest_separation]
  ext <;> simp [Vector3.unit, Length_single b hb.le, div_self hb.ne']

/-- C4: after every recomputation, the populated first row of `linearJacobianB`
is the componentwise negation of the populated first row of `linearJacobianA`,
and the second and third rows of all four Jacobian containers are zero. -/
theorem update_jacobian_shape (j : IKDistanceLimit) :
    (j.UpdateJacobiansAndVelocityBias).linearJacobianB.row1 =
      Vector3.Negate (j.UpdateJacobiansAndVelocityBias).linearJacobianA.row1 ∧
    (j.UpdateJacobiansAndVelocityBias).linearJacobianA.row2 = Vector3.zero ∧
    (j.UpdateJacobiansAndVelocityBias).linearJacobianA.row3 = Vector3.zero ∧
    (j.UpdateJacobiansAndVelocityBias).linearJacobianB.row2 = Vector3.zero ∧
    (j.UpdateJacobiansAndVelocityBias).linearJacobianB.row3 = Vector3.zero ∧
    (j.UpdateJacobiansAndVelocityBias).angularJacobianA.row2 = Vector3.zero ∧
    (j.UpdateJacobiansAndVelocityBias).angularJacobianA.row3 = Vector3.zero ∧
    (j.UpdateJacobiansAndVelocityBias).angularJacobianB.row2 = Vector3.zero ∧
    (j.UpdateJacobiansAndVelocityBias).angularJacobianB.row3 = Vector3.zero :=
  ⟨rfl, rfl, rfl, rfl, rfl, rfl, rfl, rfl, rfl⟩

/-- C5: after every recomputation, the populated row of `angularJacobianA` is
`cross(offsetA, linearA)` and the populated row of `angularJacobianB` is
`cross(linearA, offsetB)`, where `linearA` is the stored linear direction; the
swapped argument order equals the cross product with the negated direction. -/
theorem update_angular_jacobians (j : IKDistanceLimit) :
    (j.UpdateJacobiansAndVelocityBias).angularJacobianA.row1 =
      Vector3.Cross j.offsetA (j.UpdateJacobiansAndVelocityBias).linearJacobianA.row1 ∧
    (j.UpdateJacobiansAndVelocityBias).angularJacobianB.row1 =
      Vector3.Cross (j.UpdateJacobiansAndVelocityBias).linearJacobianA.row1 j.offsetB ∧
    Vector3.Cross (j.UpdateJacobiansAndVelocityBias).linearJacobianA.row1 j.offsetB =
      Vector3.Cross j.offsetB
        (Vector3.Negate (j.UpdateJacobiansAndVelocityBias).linearJacobianA.row1) :=
  ⟨rfl, rfl, Cross_swap_negate _ _⟩

/-- C9: the recomputation only writes the derived state; the stored
configuration (bone references, local anchors, distance band, correction
factor) is unchanged, and the bones, being fields of the state, are only
read. -/
theorem update_frame_effect (j : IKDistanceLimit) :
    (j.UpdateJacobiansAndVelocityBias).connectionA = j.connectionA ∧
    (j.UpdateJacobiansAndVelocityBias).connectionB = j.connectionB ∧
    (j.UpdateJacobiansAndVelocityBias).LocalAnchorA = j.LocalAnchorA ∧
    (j.UpdateJacobiansAndVelocityBias).LocalAnchorB = j.LocalAnchorB ∧
    (j.UpdateJacobiansAndVelocityBias).minimumDistance = j.minimumDistance ∧
    (j.UpdateJacobiansAndVelocityBias).maximumDistance = j.maximumDistance ∧
    (j.UpdateJacobiansAndVelocityBias).errorCorrectionFactor = j.errorCorrectionFactor :=
  ⟨rfl, rfl, rfl, rfl, rfl, rfl, rfl⟩

/-- C8: `HasError()` returns true exactly when `|error| < 0.0001` fails; at
`error = 0.00005` it returns false, at `error = 0.0002` it returns true. -/
theorem hasError_spec (j : IKDistanceLimit) :
    (j.HasError = true ↔ ¬ |j.error| < 0.0001) ∧
    (j.error = 0.00005 → j.HasError = false) ∧
    (j.error = 0.0002 → j.HasError = true) := by
  refine ⟨?_, ?_, ?_⟩
  · simp [IKDistanceLimit.HasError]
  · intro h
    simp only [IKDistanceLimit.HasError, h, Bool.not_eq_false', decide_eq_true_eq]
    rw [abs_of_nonneg (by norm_num)]
    norm_num
  · intro h
    simp only [IKDistanceLimit.HasError, h, Bool.not_eq_true', decide_eq_false_iff_not]
    rw [abs_of_nonneg (by norm_num)]
    norm_num

/-- Witness for C8 at the two boundary error values. -/
theorem hasError_spec_witness :
    ({ mkTest 2 5 0 with error := 0.0002 } : IKDistanceLimit).HasError = true ∧
    ({ mkTest 2 5 0 with error := 0.00005 } : IKDistanceLimit).HasError = false :=
  ⟨(hasError_spec _).2.2 rfl, (hasError_spec _).2.1 rfl⟩

/-- C7: the distance setters clamp to `max(0, v)` and the getters return the
stored value; each setter leaves the other bound untouched (no ordering is
enforced), and after a setter call both bounds are nonnegative provided the
other bound already was. -/
theorem distance_bound_setters (j : IKDistanceLimit) (v : ℝ) :
    (j.SetMinimumDistance v).GetMinimumDistance = max 0 v ∧
    (j.SetMaximumDistance v).GetMaximumDistance = max 0 v ∧
    (j.SetMinimumDistance v).maximumDistance = j.maximumDistance ∧
    (j.SetMaximumDistance v).minimumDistance = j.minimumDistance ∧
    0 ≤ (j.SetMinimumDistance v).minimumDistance ∧
    0 ≤ (j.SetMaximumDistance v).maximumDistance ∧
    (0 ≤ j.maximumDistance →
      0 ≤ (j.SetMinimumDistance v).minimumDistance ∧
      0 ≤ (j.SetMinimumDistance v).maximumDistance) ∧
    (0 ≤ j.minimumDistance →
      0 ≤ (j.SetMaximumDistance v).minimumDistance ∧
      0 ≤ (j.SetMaximumDistance v).maximumDistance) := by
  refine ⟨rfl, rfl, rfl, rfl, le_max_left 0 v, le_max_left 0 v, ?_, ?_⟩
  · intro h
    exact ⟨le_max_left 0 v, h⟩
  · intro h
    exact ⟨h, le_max_left 0 v⟩

/-- Witness for C7: setting a negative minimum distance on a concrete state. -/
theorem distance_bound_setters_witness :
    ((mkTest 2 5 0).SetMinimumDistance (-3)).GetMinimumDistance = max 0 (-3) ∧
    0 ≤ ((mkTest 2 5 0).SetMinimumDistance (-3)).minimumDistance ∧
    0 ≤ ((mkTest 2 5 0).SetMinimumDistance (-3)).maximumDistance := by
  have h := distance_bound_setters (mkTest 2 5 0) (-3)
  exact ⟨h.1, h.2.2.2.2.2.2.1 (by norm_num [mkTest])⟩

/-- Sandwiching a vector first by the conjugate of `q` and then by `q` scales
it by the squared norm of `q`, squared. -/
lemma Transform_Conjugate_Transform (q : Quaternion) (v : Vector3) :
    Quaternion.Transform (Quaternion.Transform v (Quaternion.Conjugate q)) q =
      ⟨q.normSq ^ 2 * v.X, q.normSq ^ 2 * v.Y, q.normSq ^ 2 * v.Z⟩ := by
  obtain ⟨qx, qy, qz, qw⟩ := q
  obtain ⟨a, b, c⟩ := v
  ext <;>
    simp [Quaternion.Transform, Quaternion.mul, Quaternion.Conjugate,
      Quaternion.normSq] <;>
    ring

/-- C6: for unit bone orientations, setting a world anchor and reading it back
returns the same point, for both the A and the B side. -/
theorem anchor_roundtrip (j : IKDistanceLimit) (P : Vector3)
    (hA : j.connectionA.Orientation.normSq = 1)
    (hB : j.connectionB.Orientation.normSq = 1) :
    (j.SetAnchorA P).GetAnchorA = P ∧ (j.SetAnchorB P).GetAnchorB = P := by
  constructor
  · show Vector3.Add j.connectionA.Position
      (Quaternion.Transform
        (Quaternion.Transform (Vector3.Subtract P j.connectionA.Position)
          (Quaternion.Conjugate j.connectionA.Orientation))
        j.connectionA.Orientation) = P
    rw [Transform_Conjugate_Transform, hA]
    ext <;> simp [Vector3.Add, Vector3.Subtract]
  · show Vector3.Add j.connectionB.Position
      (Quaternion.Transform
        (Quaternion.Transform (Vector3.Subtract P j.connectionB.Position)
          (Quaternion.Conjugate j.connectionB.Orientation))
        j.connectionB.Orientation) = P
    rw [Transform_Conjugate_Transform, hB]
    ext <;> simp [Vector3.Add, Vector3.Subtract]

/-- Witness for C6 on a concrete pose and point. -/
theorem anchor_roundtrip_witness :
    ((mkTest 2 5 3).SetAnchorA ⟨1, 2, 3⟩).GetAnchorA = ⟨1, 2, 3⟩ ∧
    ((mkTest 2 5 3).SetAnchorB ⟨1, 2, 3⟩).GetAnchorB = ⟨1, 2, 3⟩ :=
  anchor_roundtrip (mkTest 2 5 3) ⟨1, 2, 3⟩
    (by norm_num [mkTest, qId, Quaternion.normSq])
    (by norm_num [mkTest, qId, Quaternion.normSq])

/-- C1: in a non-degenerate recomputation the two violation branches fire in
priority order: above the maximum the error is the excess, the bias is the
scaled error and the stored direction is `unit(separation)`; otherwise below
the minimum the error is the deficit, the bias is the scaled error and the
stored direction is the negated `unit(separation)`. -/
theorem update_violation_branches (j : IKDistanceLimit)
    (hnd : j.currentDistance > ToolboxEpsilon) :
    (j.currentDistance > j.maximumDistance →
      (j.UpdateJacobiansAndVelocityBias).error =
        j.currentDistance - j.maximumDistance ∧
      (j.UpdateJacobiansAndVelocityBias).velocityBias =
        ⟨j.errorCorrectionFactor * (j.currentDistance - j.maximumDistance), 0, 0⟩ ∧
      (j.UpdateJacobiansAndVelocityBias).linearJacobianA.row1 =
        j.separation.unit) ∧
    (¬ j.currentDistance > j.maximumDistance →
      j.currentDistance < j.minimumDistance →
      (j.UpdateJacobiansAndVelocityBias).error =
        j.minimumDistance - j.currentDistance ∧
      (j.UpdateJacobiansAndVelocityBias).velocityBias =
        ⟨j.errorCorrectionFactor * (j.minimumDistance - j.currentDistance), 0, 0⟩ ∧
      (j.UpdateJacobiansAndVelocityBias).linearJacobianA.row1 =
        Vector3.Negate j.separation.unit) := by
  constructor
  · intro hmax
    unfold IKDistanceLimit.UpdateJacobiansAndVelocityBias
    rw [if_pos hnd, if_pos hmax]
    exact ⟨rfl, rfl, rfl⟩
  · intro hmaxn hmin
    unfold IKDistanceLimit.UpdateJacobiansAndVelocityBias
    rw [if_pos hnd, if_neg hmaxn, if_pos hmin]
    exact ⟨rfl, rfl, rfl⟩

/-- Witness for C1 at distance 5 with band [1, 3] (upper-bound violation). -/
theorem update_violation_branches_witness :
    ((mkTest 1 3 5).UpdateJacobiansAndVelocityBias).error = 2 ∧
    ((mkTest 1 3 5).UpdateJacobiansAndVelocityBias).velocityBias = ⟨2, 0, 0⟩ ∧
    ((mkTest 1 3 5).UpdateJacobiansAndVelocityBias).linearJacobianA.row1 =
      ⟨1, 0, 0⟩ := by
  have hcd : (mkTest 1 3 5).currentDistance = 5 :=
    mkTest_currentDistance 1 3 5 (by norm_num)
  have h := (update_violation_branches (mkTest 1 3 5)
      (by rw [hcd]; norm_num [ToolboxEpsilon])).1
      (by rw [hcd]; norm_num [mkTest])
  obtain ⟨h1, h2, h3⟩ := h
  refine ⟨?_, ?_, ?_⟩
  · rw [h1, hcd]
    norm_num [mkTest]
  · rw [h2, hcd]
    norm_num [mkTest]
  · rw [h3, mkTest_unit 1 3 5 (by norm_num)]

/-- C2: inside the band (non-degenerate, `min ≤ d ≤ max`) the error is zero and
the bias holds negative slack: closer to the maximum it is `d − max` with the
direction kept, otherwise `min − d` with the direction negated. -/
theorem update_inside_band (j : IKDistanceLimit)
    (hnd : j.currentDistance > ToolboxEpsilon)
    (hmin : j.minimumDistance ≤ j.currentDistance)
    (hmax : j.currentDistance ≤ j.maximumDistance) :
    (j.currentDistance - j.minimumDistance >
        0.5 * (j.maximumDistance - j.minimumDistance) →
      (j.UpdateJacobiansAndVelocityBias).error = 0 ∧
      (j.UpdateJacobiansAndVelocityBias).velocityBias =
        ⟨j.currentDistance - j.maximumDistance, 0, 0⟩ ∧
      (j.UpdateJacobiansAndVelocityBias).linearJacobianA.row1 =
        j.separation.unit) ∧
    (¬ j.currentDistance - j.minimumDistance >
        0.5 * (j.maximumDistance - j.minimumDistance) →
      (j.UpdateJacobiansAndVelocityBias).error = 0 ∧
      (j.UpdateJacobiansAndVelocityBias).velocityBias =
        ⟨j.minimumDistance - j.currentDistance, 0, 0⟩ ∧
      (j.UpdateJacobiansAndVelocityBias).linearJacobianA.row1 =
        Vector3.Negate j.separation.unit) := by
  have hmaxn : ¬ j.currentDistance > j.maximumDistance := not_lt.mpr hmax
  have hminn : ¬ j.currentDistance < j.minimumDistance := not_lt.mpr hmin
  constructor
  · intro hup
    have hup2 : j.currentDistance - j.minimumDistance >
        (j.maximumDistance - j.minimumDistance) * 0.5 := by linarith
    unfold IKDistanceLimit.UpdateJacobiansAndVelocityBias
    rw [if_pos hnd, if_neg hmaxn, if_neg hminn, if_pos hup2]
    exact ⟨rfl, rfl, rfl⟩
  · intro hlo
    have hlo2 : ¬ j.currentDistance - j.minimumDistance >
        (j.maximumDistance - j.minimumDistance) * 0.5 := by
      intro h
      exact hlo (by linarith)
    unfold IKDistanceLimit.UpdateJacobiansAndVelocityBias
    rw [if_pos hnd, if_neg hmaxn, if_neg hminn, if_neg hlo2]
    exact ⟨rfl, rfl, rfl⟩

/-- Witness for C2 at distance 4 with band [2, 5] (inside, closer to the
maximum): zero error and slack `4 − 5 = −1`. -/
theorem update_inside_band_witness :
    ((mkTest 2 5 4).UpdateJacobiansAndVelocityBias).error = 0 ∧
    ((mkTest 2 5 4).UpdateJacobiansAndVelocityBias).velocityBias = ⟨-1, 0, 0⟩ ∧
    ((mkTest 2 5 4).UpdateJacobiansAndVelocityBias).linearJacobianA.row1 =
      ⟨1, 0, 0⟩ := by
  have hcd : (mkTest 2 5 4).currentDistance = 4 :=
    mkTest_currentDistance 2 5 4 (by norm_num)
  have h := (update_inside_band (mkTest 2 5 4)
      (by rw [hcd]; norm_num [ToolboxEpsilon])
      (by rw [hcd]; norm_num [mkTest])
      (by rw [hcd]; norm_num [mkTest])).1
      (by rw [hcd]; norm_num [mkTest])
  obtain ⟨h1, h2, h3⟩ := h
  refine ⟨h1, ?_, ?_⟩
  · rw [h2, hcd]
    norm_num [mkTest]
  · rw [h3, mkTest_unit 2 5 4 (by norm_num)]

/-- C3: in the degenerate case (current distance at or below the epsilon) no
normalization is performed — the guarded branch is skipped — and the error,
the velocity bias and the populated rows of both linear Jacobians are zero. -/
theorem update_degenerate (j : IKDistanceLimit)
    (hdeg : j.currentDistance ≤ ToolboxEpsilon) :
    (j.UpdateJacobiansAndVelocityBias).error = 0 ∧
    (j.UpdateJacobiansAndVelocityBias).velocityBias = Vector3.zero ∧
    (j.UpdateJacobiansAndVelocityBias).linearJacobianA.row1 = Vector3.zero ∧
    (j.UpdateJacobiansAndVelocityBias).linearJacobianB.row1 = Vector3.zero := by
  have hn : ¬ j.currentDistance > ToolboxEpsilon := not_lt.mpr hdeg
  unfold IKDistanceLimit.UpdateJacobiansAndVelocityBias
  rw [if_neg hn]
  refine ⟨rfl, rfl, rfl, ?_⟩
  show Vector3.Negate Vector3.zero = Vector3.zero
  ext <;> simp [Vector3.Negate, Vector3.zero]

/-- Witness for C3 with coincident anchors (distance 0). -/
theorem update_degenerate_witness :
    ((mkTest 1 3 0).UpdateJacobiansAndVelocityBias).error = 0 ∧
    ((mkTest 1 3 0).UpdateJacobiansAndVelocityBias).velocityBias = Vector3.zero ∧
    ((mkTest 1 3 0).UpdateJacobiansAndVelocityBias).linearJacobianA.row1 =
      Vector3.zero ∧
    ((mkTest 1 3 0).UpdateJacobiansAndVelocityBias).linearJacobianB.row1 =
      Vector3.zero :=
  update_degenerate (mkTest 1 3 0)
    (by rw [mkTest_currentDistance 1 3 0 le_rfl]; norm_num [ToolboxEpsilon])

/-- C10: with `min < max` and a non-degenerate current distance exactly at one
of the bounds, neither strict violation branch fires: the inside-band branches
run, the error is zero, the slack component is zero, and `HasError()` is
false afterwards. -/
theorem update_boundary_distances (j : IKDistanceLimit)
    (hband : j.minimumDistance < j.maximumDistance)
    (hnd : j.currentDistance > ToolboxEpsilon)
    (hcd : j.currentDistance = j.maximumDistance ∨
      j.currentDistance = j.minimumDistance) :
    (j.UpdateJacobiansAndVelocityBias).error = 0 ∧
    (j.UpdateJacobiansAndVelocityBias).velocityBias.X = 0 ∧
    (j.UpdateJacobiansAndVelocityBias).HasError = false := by
  have hmain : (j.UpdateJacobiansAndVelocityBias).error = 0 ∧
      (j.UpdateJacobiansAndVelocityBias).velocityBias.X = 0 := by
    rcases hcd with h | h
    · have hmaxn : ¬ j.currentDistance > j.maximumDistance := by
        rw [h]
        exact lt_irrefl _
      have hminn : ¬ j.currentDistance < j.minimumDistance := by
        rw [h]
        exact not_lt.mpr hband.le
      have hup : j.currentDistance - j.minimumDistance >
          (j.maximumDistance - j.minimumDistance) * 0.5 := by
        rw [h]
        nlinarith
      unfold IKDistanceLimit.UpdateJacobiansAndVelocityBias
      rw [if_pos hnd, if_neg hmaxn, if_neg hminn, if_pos hup]
      refine ⟨rfl, ?_⟩
      show j.currentDistance - j.maximumDistance = 0
      rw [h, sub_self]
    · have hmaxn : ¬ j.currentDistance > j.maximumDistance := by
        rw [h]
        exact not_lt.mpr hband.le
      have hminn : ¬ j.currentDistance < j.minimumDistance := by
        rw [h]
        exact lt_irrefl _
      have hlon : ¬ j.currentDistance - j.minimumDistance >
          (j.maximumDistance - j.minimumDistance) * 0.5 := by
        rw [h]
        nlinarith
      unfold IKDistanceLimit.UpdateJacobiansAndVelocityBias
      rw [if_pos hnd, if_neg hmaxn, if_neg hminn, if_neg hlon]
      refine ⟨rfl, ?_⟩
      show j.minimumDistance - j.currentDistance = 0
      rw [h, sub_self]
  refine ⟨hmain.1, hmain.2, ?_⟩
  simp only [IKDistanceLimit.HasError, hmain.1, Bool.not_eq_true',
    decide_eq_false_iff_not, not_not]
  rw [abs_of_nonneg le_rfl]
  norm_num

/-- Witness for C10 at distance 5 with band [2, 5] (exactly at the maximum). -/
theorem update_boundary_distances_witness :
    ((mkTest 2 5 5).UpdateJacobiansAndVelocityBias).error = 0 ∧
    ((mkTest 2 5 5).UpdateJacobiansAndVelocityBias).velocityBias.X = 0 ∧
    ((mkTest 2 5 5).UpdateJacobiansAndVelocityBias).HasError = false := by
  have hcd : (mkTest 2 5 5).currentDistance = 5 :=
    mkTest_currentDistance 2 5 5 (by norm_num)
  exact update_boundary_distances (mkTest 2 5 5)
    (by norm_num [mkTest])
    (by rw [hcd]; norm_num [ToolboxEpsilon])
    (Or.inl (by rw [hcd]; norm_num [mkTest]))

end BEPUik
